import Mathlib

/-
Verification development for the explicit-free-list allocator
(src/src/mm.cpp, src/src/memlib.cpp).

The heap is modelled as a byte-addressed memory: a total function from
byte offsets (relative to heap_start, which is taken as offset 0) to byte
values.  Headers and footers are unsigned 32-bit little-endian words, read
and written through load32 and store32.  Machine integers are modelled as
Nat with explicit reductions modulo 2^32 (uint32_t) and 2^64 (size_t)
where the C++ code can overflow.  Null pointers are modelled by Option.
-/

namespace MM

/-- Write the 32-bit value v at byte address a, little-endian
(models put_uvalue_at placing a uint32_t into the byte array). -/
def store32 (mem : Nat → Nat) (a v : Nat) : Nat → Nat :=
  fun x =>
    if x = a then v % 256
    else if x = a + 1 then v / 256 % 256
    else if x = a + 2 then v / 65536 % 256
    else if x = a + 3 then v / 16777216 % 256
    else mem x

/-- Read the 32-bit little-endian value at byte address a
(models get_uat reading a uint32_t from the byte array). -/
def load32 (mem : Nat → Nat) (a : Nat) : Nat :=
  mem a % 256 + 256 * (mem (a + 1) % 256) + 65536 * (mem (a + 2) % 256)
    + 16777216 * (mem (a + 3) % 256)

/-- WORD_SIZE from src/src/mm.cpp. -/
def WORD_SIZE : Nat := 4

/-- DOUBLE_SIZE from src/src/mm.cpp. -/
def DOUBLE_SIZE : Nat := 8

/-- CHUNK_SIZE from src/src/mm.cpp. -/
def CHUNK_SIZE : Nat := 4096

/-- MAX_HEAP_SIZE from src/src/memlib.cpp (20 MiB). -/
def MAX_HEAP_SIZE : Nat := 20971520

/-- State of the region source (src/src/memlib.cpp): the backing memory,
the break pointer heap_brk and the limit heap_max_addr, both as byte
offsets from heap_start = 0. -/
structure MemState where
  mem : Nat → Nat
  brk : Nat
  maxAddr : Nat

/-- mem_init from src/src/memlib.cpp: acquire a fresh region.  The fresh
region is uninitialized, which we model by keeping the previous arbitrary
byte function; brk is reset to the region base (offset 0). -/
def mem_init (m : MemState) : MemState :=
  { mem := m.mem, brk := 0, maxAddr := MAX_HEAP_SIZE }

/-- mem_sbrk from src/src/memlib.cpp: returns the old break and advances
it, or returns null (none) when the region is exhausted.  The C++ check
increment < 0 on an unsigned parameter is dead and is dropped. -/
def mem_sbrk (m : MemState) (increment : Nat) : MemState × Option Nat :=
  if m.brk + increment > m.maxAddr then (m, none)
  else ({ mem := m.mem, brk := m.brk + increment, maxAddr := m.maxAddr }, some m.brk)

/-- max from src/src/mm.cpp.  The C++ template is declared with return
type bool, so the selected value is converted to bool (nonzero gives
true) and the caller receives 0 or 1. -/
def max (x y : Nat) : Nat :=
  if (if x > y then x else y) ≠ 0 then 1 else 0

/-- pack from src/src/mm.cpp (the bool overload, the one used by every
call site).  The size_t argument is converted to uint32_t at the call. -/
def pack (size : Nat) (alloc : Bool) : Nat :=
  (size % 4294967296) ||| (if alloc then 1 else 0)

/-- get_uat from src/src/mm.cpp. -/
def get_uat (mem : Nat → Nat) (pointer : Nat) : Nat := load32 mem pointer

/-- put_uvalue_at from src/src/mm.cpp. -/
def put_uvalue_at (mem : Nat → Nat) (pointer value : Nat) : Nat → Nat :=
  store32 mem pointer value

/-- get_blksize from src/src/mm.cpp: mask off the low three bits
(the uint32_t mask ~0x7 is 4294967288). -/
def get_blksize (mem : Nat → Nat) (header_ptr : Nat) : Nat :=
  get_uat mem header_ptr &&& 4294967288

/-- get_allocated from src/src/mm.cpp: the low bit, cast to bool. -/
def get_allocated (mem : Nat → Nat) (header_ptr : Nat) : Bool :=
  decide (get_uat mem header_ptr &&& 1 ≠ 0)

/-- get_header_ptr from src/src/mm.cpp. -/
def get_header_ptr (block_ptr : Nat) : Nat := block_ptr - WORD_SIZE

/-- get_footer_ptr from src/src/mm.cpp. -/
def get_footer_ptr (mem : Nat → Nat) (block_ptr : Nat) : Nat :=
  block_ptr + get_blksize mem (get_header_ptr block_ptr) - DOUBLE_SIZE

/-- get_nextblk_ptr from src/src/mm.cpp (the mm.cpp variant, which reads
the size from the header of the current block). -/
def get_nextblk_ptr (mem : Nat → Nat) (block_ptr : Nat) : Nat :=
  block_ptr + get_blksize mem (block_ptr - WORD_SIZE)

/-- get_prevblk_ptr from src/src/mm.cpp (reads the footer of the
previous block). -/
def get_prevblk_ptr (mem : Nat → Nat) (block_ptr : Nat) : Nat :=
  block_ptr - get_blksize mem (block_ptr - DOUBLE_SIZE)

/-- Allocator state: the file-scope static heap_listp (null modelled as
none) together with the region source state. -/
structure AllocState where
  heap_listp : Option Nat
  m : MemState

/-- coalesce from src/src/mm.cpp.  Returns the new memory and the
returned block pointer.  Each address argument of a write is evaluated
against the memory as it stands at that point in the C++ statement
sequence, which is what makes the allocated/free case interesting: the
footer target is computed after the header of block_ptr was rewritten. -/
def coalesce (mem : Nat → Nat) (block_ptr : Nat) : (Nat → Nat) × Nat :=
  let prev_allocated := get_allocated mem (get_footer_ptr mem (get_prevblk_ptr mem block_ptr))
  let next_allocated := get_allocated mem (get_header_ptr (get_nextblk_ptr mem block_ptr))
  let s0 := get_blksize mem (get_header_ptr block_ptr)
  match prev_allocated, next_allocated with
  | true, true => (mem, block_ptr)
  | true, false =>
    let sz := s0 + get_blksize mem (get_header_ptr (get_nextblk_ptr mem block_ptr))
    let mem1 := put_uvalue_at mem (get_header_ptr block_ptr) (pack sz false)
    let mem2 := put_uvalue_at mem1
      (get_footer_ptr mem1 (get_nextblk_ptr mem1 block_ptr)) (pack sz false)
    (mem2, block_ptr)
  | false, true =>
    let sz := s0 + get_blksize mem (get_header_ptr (get_prevblk_ptr mem block_ptr))
    let prev_blkptr := get_prevblk_ptr mem block_ptr
    let mem1 := put_uvalue_at mem (get_footer_ptr mem block_ptr) (pack sz false)
    let mem2 := put_uvalue_at mem1
      (get_header_ptr (get_prevblk_ptr mem1 block_ptr)) (pack sz false)
    (mem2, prev_blkptr)
  | false, false =>
    let sz := s0 + get_blksize mem (get_header_ptr (get_prevblk_ptr mem block_ptr))
      + get_blksize mem (get_header_ptr (get_nextblk_ptr mem block_ptr))
    let prev_blkptr := get_prevblk_ptr mem block_ptr
    let mem1 := put_uvalue_at mem
      (get_header_ptr (get_prevblk_ptr mem block_ptr)) (pack sz false)
    let mem2 := put_uvalue_at mem1
      (get_footer_ptr mem1 (get_nextblk_ptr mem1 block_ptr)) (pack sz false)
    (mem2, prev_blkptr)

/-- extend_heap from src/src/mm.cpp. -/
def extend_heap (s : AllocState) (words : Nat) : AllocState × Option Nat :=
  let size := if words % 2 = 0 then words * WORD_SIZE else (words + 1) * WORD_SIZE
  match mem_sbrk s.m size with
  | (m1, none) => ({ s with m := m1 }, none)
  | (m1, some block_ptr) =>
    let mem1 := put_uvalue_at m1.mem (get_header_ptr block_ptr) (pack size false)
    let mem2 := put_uvalue_at mem1 (get_footer_ptr mem1 block_ptr) (pack size false)
    let mem3 := put_uvalue_at mem2
      (get_header_ptr (get_nextblk_ptr mem2 block_ptr)) (pack 0 true)
    let r := coalesce mem3 block_ptr
    ({ s with m := { m1 with mem := r.1 } }, some r.2)

/-- place from src/src/mm.cpp.  The split test curr_size - asize is
size_t subtraction, hence the explicit wrap modulo 2^64. -/
def place (mem : Nat → Nat) (block_ptr asize : Nat) : Nat → Nat :=
  let curr_size := get_blksize mem (get_header_ptr block_ptr)
  if (curr_size + 18446744073709551616 - asize) % 18446744073709551616 ≥ 2 * DOUBLE_SIZE then
    let mem1 := put_uvalue_at mem (get_header_ptr block_ptr) (pack asize true)
    let mem2 := put_uvalue_at mem1 (get_footer_ptr mem1 block_ptr) (pack asize true)
    let block_ptr2 := get_nextblk_ptr mem2 block_ptr
    let mem3 := put_uvalue_at mem2 (get_header_ptr block_ptr2)
      (pack ((curr_size + 18446744073709551616 - asize) % 18446744073709551616) false)
    put_uvalue_at mem3 (get_footer_ptr mem3 block_ptr2)
      (pack ((curr_size + 18446744073709551616 - asize) % 18446744073709551616) false)
  else
    let mem1 := put_uvalue_at mem (get_header_ptr block_ptr) (pack curr_size true)
    put_uvalue_at mem1 (get_footer_ptr mem1 block_ptr) (pack curr_size true)

/-- Loop body of find_fit from src/src/mm.cpp, with explicit fuel (the
C++ for loop is bounded by the heap size in any well-formed heap). -/
def find_fit_loop (mem : Nat → Nat) (asize : Nat) : Nat → Nat → Option Nat
  | 0, _ => none
  | fuel + 1, block_ptr =>
    if get_blksize mem (get_header_ptr block_ptr) > 0 then
      if get_allocated mem (get_header_ptr block_ptr) = false ∧
          asize ≤ get_blksize mem (get_header_ptr block_ptr) then
        some block_ptr
      else find_fit_loop mem asize fuel (get_nextblk_ptr mem block_ptr)
    else none

/-- find_fit from src/src/mm.cpp: first-fit scan from heap_listp. -/
def find_fit (mem : Nat → Nat) (start asize fuel : Nat) : Option Nat :=
  find_fit_loop mem asize fuel start

/-- Adjusted block size computed by mm_malloc (src/src/mm.cpp lines
211-226): header and footer are added, then the size is rounded with
asize = actual_reqsize + (DOUBLE_SIZE - actual_reqsize % DOUBLE_SIZE).
All arithmetic is size_t, hence the reductions modulo 2^64. -/
def adjusted_size (size : Nat) : Nat :=
  if size ≤ DOUBLE_SIZE then 2 * DOUBLE_SIZE
  else
    let actual_reqsize := (size + 2 * WORD_SIZE) % 18446744073709551616
    (actual_reqsize + (DOUBLE_SIZE - actual_reqsize % DOUBLE_SIZE)) % 18446744073709551616

/-- mm_init from src/src/mm.cpp: acquire the region, lay down the pad,
the prologue and the epilogue, point heap_listp between the prologue
header and footer, then extend by CHUNK_SIZE / WORD_SIZE words.  Note
that on a failing extend the function returns -1 but heap_listp stays
set, exactly as in the source. -/
def mm_init (s : AllocState) : AllocState × Int :=
  let m0 := mem_init s.m
  match mem_sbrk m0 (4 * WORD_SIZE) with
  | (m1, none) => ({ heap_listp := none, m := m1 }, -1)
  | (m1, some hp) =>
    let mem1 := put_uvalue_at m1.mem hp 0
    let mem2 := put_uvalue_at mem1 (hp + WORD_SIZE) (pack DOUBLE_SIZE true)
    let mem3 := put_uvalue_at mem2 (hp + 2 * WORD_SIZE) (pack DOUBLE_SIZE true)
    let mem4 := put_uvalue_at mem3 (hp + 3 * WORD_SIZE) (pack 0 true)
    let s1 : AllocState := { heap_listp := some (hp + 2 * WORD_SIZE), m := { m1 with mem := mem4 } }
    match extend_heap s1 (CHUNK_SIZE / WORD_SIZE) with
    | (s2, none) => (s2, -1)
    | (s2, some _) => (s2, 0)

/-- mm_malloc from src/src/mm.cpp.  Lazy init happens before the
size == 0 test; the return value of mm_init is ignored, as in the
source.  The branch for a still-null heap_listp after init is the
surrogate for the undefined behavior the C++ code would exhibit there
(it would dereference pointers around null); it is unreachable from any
state mem_init can produce. -/
def mm_malloc (s : AllocState) (size : Nat) : AllocState × Option Nat :=
  let s1 := if s.heap_listp = none then (mm_init s).1 else s
  if size = 0 then (s1, none)
  else
    match s1.heap_listp with
    | none => (s1, none)
    | some hl =>
      let asize := adjusted_size size
      match find_fit s1.m.mem hl asize s1.m.maxAddr with
      | some block_ptr =>
        ({ s1 with m := { s1.m with mem := place s1.m.mem block_ptr asize } }, some block_ptr)
      | none =>
        let extendsize := MM.max asize CHUNK_SIZE
        match extend_heap s1 (extendsize / WORD_SIZE) with
        | (s2, none) => (s2, none)
        | (s2, some block_ptr) =>
          ({ s2 with m := { s2.m with mem := place s2.m.mem block_ptr asize } }, some block_ptr)

/-- mm_free from src/src/mm.cpp.  The block size is read before the lazy
init test, exactly as in the source. -/
def mm_free (s : AllocState) (block_ptr : Option Nat) : AllocState :=
  match block_ptr with
  | none => s
  | some b =>
    let size := get_blksize s.m.mem (get_header_ptr b)
    let s1 := if s.heap_listp = none then (mm_init s).1 else s
    let mem1 := put_uvalue_at s1.m.mem (get_header_ptr b) (pack size false)
    let mem2 := put_uvalue_at mem1 (get_footer_ptr mem1 b) (pack size false)
    let r := coalesce mem2 b
    { s1 with m := { s1.m with mem := r.1 } }

/-- Byte-wise copy of n bytes from src to dst, modelling the std::memcpy
call in mm_realloc. -/
def memcpy (mem : Nat → Nat) (dst src : Nat) : Nat → (Nat → Nat)
  | 0 => mem
  | n + 1 =>
    fun x => if x = dst + n then memcpy mem dst src n (src + n) else memcpy mem dst src n x

/-- mm_realloc from src/src/mm.cpp: free on size 0, malloc on null
input, otherwise allocate, copy min(size, old total block size) bytes
and free the old block; on a failed allocation return null without
freeing. -/
def mm_realloc (s : AllocState) (block_ptr : Option Nat) (size : Nat) : AllocState × Option Nat :=
  if size = 0 then (mm_free s block_ptr, none)
  else
    match block_ptr with
    | none => mm_malloc s size
    | some b =>
      match mm_malloc s size with
      | (s1, none) => (s1, none)
      | (s1, some new_blkptr) =>
        let oldsize := get_blksize s1.m.mem (get_header_ptr b)
        let count := if size < oldsize then size else oldsize
        let mem1 := memcpy s1.m.mem new_blkptr b count
        let s2 : AllocState := { s1 with m := { s1.m with mem := mem1 } }
        (mm_free s2 (some b), some new_blkptr)

/-- The heap walk performed by checkheap (src/src/mm.cpp): starting from
heap_listp, list every block (handle, size, allocated) until a
zero-size header (the epilogue) is met.  Explicit fuel bounds the
walk. -/
def heapWalk (mem : Nat → Nat) : Nat → Nat → List (Nat × Nat × Bool)
  | 0, _ => []
  | fuel + 1, block_ptr =>
    if get_blksize mem (get_header_ptr block_ptr) > 0 then
      (block_ptr, get_blksize mem (get_header_ptr block_ptr),
        get_allocated mem (get_header_ptr block_ptr))
        :: heapWalk mem fuel (get_nextblk_ptr mem block_ptr)
    else []

/-- The uninitialized allocator state: heap_listp is null, the region
bytes are arbitrary (taken as zero here for concrete evaluation). -/
def S0 : AllocState :=
  { heap_listp := none, m := { mem := fun _ => 0, brk := 0, maxAddr := MAX_HEAP_SIZE } }

/-- State after mm_init: pad, prologue (8,1)(8,1), one free 4096-byte
block, epilogue (0,1); brk = 4112, heap_listp = 8. -/
def S1 : AllocState := (mm_init S0).1

/-- State after mm_init and one mm_malloc 8 (handle 16, block size 16). -/
def S2 : AllocState := (mm_malloc S1 8).1

/-- State after a second mm_malloc 8 (handle 32). -/
def S3 : AllocState := (mm_malloc S2 8).1

/-- State after a third mm_malloc 8 (handle 48). -/
def S4 : AllocState := (mm_malloc S3 8).1

/-- State after mm_free of the middle block (handle 32). -/
def S5 : AllocState := mm_free S4 (some 32)

/-- State after mm_free of the first block (handle 16): the
allocated/free coalesce case fires with an allocated block after the
free successor. -/
def S6 : AllocState := mm_free S5 (some 16)

/-- Concrete heap for the coalesce counterexample: prologue (8,1),
free block at handle 16 of size 16, free block at handle 32 of size 16,
allocated block at handle 48 of size 16, epilogue at header 60. -/
def memX : Nat → Nat :=
  store32 (store32 (store32 (store32 (store32 (store32 (store32 (store32 (store32
    (fun _ => 0) 4 9) 8 9) 12 16) 24 16) 28 16) 40 16) 44 17) 56 17) 60 1

/-- Concrete heap for the coalesce witness: prologue (8,1), free block
at handle 16 of size 16, free block at handle 32 of size 16, epilogue
at header 44. -/
def memW : Nat → Nat :=
  store32 (store32 (store32 (store32 (store32 (store32 (store32
    (fun _ => 0) 4 9) 8 9) 12 16) 24 16) 28 16) 40 16) 44 1

/-- Concrete initialized state with an exhausted region (brk past
maxAddr) and no free block: prologue and epilogue only.  Used to
exercise the failing-allocation path. -/
def S8 : AllocState :=
  { heap_listp := some 8,
    m := { mem := store32 (store32 (store32 (store32 (fun _ => 0) 0 0) 4 9) 8 9) 12 1,
           brk := 16, maxAddr := 10 } }

end MM

namespace MM

theorem store32_outside (mem : Nat → Nat) (a v x : Nat)
    (h : x < a ∨ a + 4 ≤ x) : store32 mem a v x = mem x := by
  unfold store32
  rw [if_neg (by omega), if_neg (by omega), if_neg (by omega), if_neg (by omega)]

theorem load32_store32_same (mem : Nat → Nat) (a v : Nat) :
    load32 (store32 mem a v) a = v % 4294967296 := by
  unfold load32 store32
  rw [if_pos rfl]
  rw [if_neg (by omega), if_pos rfl]
  rw [if_neg (by omega), if_neg (by omega), if_pos rfl]
  rw [if_neg (by omega), if_neg (by omega), if_neg (by omega), if_pos rfl]
  omega

theorem load32_store32_other (mem : Nat → Nat) (a v x : Nat)
    (h : x + 4 ≤ a ∨ a + 4 ≤ x) : load32 (store32 mem a v) x = load32 mem x := by
  unfold load32
  rw [store32_outside mem a v x (by omega), store32_outside mem a v (x+1) (by omega),
      store32_outside mem a v (x+2) (by omega), store32_outside mem a v (x+3) (by omega)]

theorem add_small_div (s t i : Nat) (h8 : s % 8 = 0) (ht : t < 8) (hi : 3 ≤ i) :
    (s + t) / 2 ^ i = s / 2 ^ i := by
  obtain ⟨c, hc⟩ : (8:Nat) ∣ 2 ^ i := by
    refine ⟨2 ^ (i - 3), ?_⟩
    rw [show (8:Nat) = 2^3 by norm_num, ← pow_add]
    congr 1
    omega
  have hp : (0:Nat) < 2 ^ i := by positivity
  have hcpos : 0 < c := by omega
  obtain ⟨k, hk⟩ := Nat.dvd_of_mod_eq_zero h8
  obtain ⟨d, hd⟩ : (8:Nat) ∣ s % 2 ^ i := by
    rw [hk, hc, Nat.mul_mod_mul_left]
    exact ⟨k % c, rfl⟩
  have hs2 : s % 2 ^ i < 2 ^ i := Nat.mod_lt _ hp
  have htz : t / 2 ^ i = 0 := Nat.div_eq_of_lt (by omega)
  have htm : t % 2 ^ i = t := Nat.mod_eq_of_lt (by omega)
  rw [Nat.add_div hp, htz, htm, if_neg (by omega)]
  omega

theorem lor_small (s t : Nat) (h8 : s % 8 = 0) (ht : t < 8) : s ||| t = s + t := by
  apply Nat.eq_of_testBit_eq
  intro i
  rw [Nat.testBit_lor]
  by_cases hi : i < 3
  · interval_cases i <;>
      (rw [Bool.eq_iff_iff]; simp only [Nat.testBit_to_div_mod, Bool.or_eq_true,
        decide_eq_true_eq]; omega)
  · rw [Bool.eq_iff_iff]
    simp only [Nat.testBit_to_div_mod, add_small_div s t i h8 ht (by omega),
      Nat.div_eq_of_lt (show t < 2 ^ i by
        calc t < 8 := ht
        _ ≤ 2 ^ i := by
          calc (8:Nat) = 2 ^ 3 := by norm_num
          _ ≤ 2 ^ i := Nat.pow_le_pow_right (by norm_num) (by omega)),
      Bool.or_eq_true, decide_eq_true_eq]
    omega

theorem and_mask_add (s t : Nat) (h8 : s % 8 = 0) (h32 : s < 4294967296) (ht : t < 8) :
    (s + t) &&& 4294967288 = s := by
  apply Nat.eq_of_testBit_eq
  intro i
  rw [Nat.testBit_land]
  have hmask : (4294967288 : Nat) = (2 ^ 29 - 1) <<< 3 := by norm_num [Nat.shiftLeft_eq]
  rw [hmask, Nat.testBit_shiftLeft, Nat.testBit_two_pow_sub_one]
  by_cases hi3 : i < 3
  · interval_cases i <;>
      (rw [Bool.eq_iff_iff]; simp only [Nat.testBit_to_div_mod, Bool.and_eq_true,
        decide_eq_true_eq, ge_iff_le]; omega)
  · by_cases hi32 : i < 32
    · rw [Bool.eq_iff_iff]
      simp only [Nat.testBit_to_div_mod, add_small_div s t i h8 ht (by omega),
        Bool.and_eq_true, decide_eq_true_eq, ge_iff_le]
      omega
    · have h2i : (4294967296:Nat) ≤ 2 ^ i := by
        calc (4294967296:Nat) = 2 ^ 32 := by norm_num
        _ ≤ 2 ^ i := Nat.pow_le_pow_right (by norm_num) (by omega)
      have hz1 : s / 2 ^ i = 0 := Nat.div_eq_of_lt (by omega)
      have hz2 : (s + t) / 2 ^ i = 0 := Nat.div_eq_of_lt (by omega)
      rw [Bool.eq_iff_iff]
      simp only [Nat.testBit_to_div_mod, hz1, hz2, Bool.and_eq_true, decide_eq_true_eq,
        ge_iff_le]
      omega

theorem and_one_add (s t : Nat) (h8 : s % 8 = 0) (ht : t < 2) : (s + t) &&& 1 = t := by
  rw [Nat.and_one_is_mod]
  omega

theorem pack_eq_add (s : Nat) (al : Bool) (h8 : s % 8 = 0) (h32 : s < 4294967296) :
    pack s al = s + (if al then 1 else 0) := by
  unfold pack
  rw [Nat.mod_eq_of_lt h32, lor_small s _ h8 (by cases al <;> norm_num)]

theorem pack_lt (s : Nat) (al : Bool) (h8 : s % 8 = 0) (h32 : s < 4294967296) :
    pack s al < 4294967296 := by
  rw [pack_eq_add s al h8 h32]
  cases al <;> simp <;> omega

theorem get_blksize_eq {mem : Nat → Nat} {p s : Nat} {al : Bool}
    (h : load32 mem p = pack s al) (h8 : s % 8 = 0) (h32 : s < 4294967296) :
    get_blksize mem p = s := by
  unfold get_blksize get_uat
  rw [h, pack_eq_add s al h8 h32]
  exact and_mask_add s _ h8 h32 (by cases al <;> norm_num)

theorem get_allocated_eq {mem : Nat → Nat} {p s : Nat} {al : Bool}
    (h : load32 mem p = pack s al) (h8 : s % 8 = 0) (h32 : s < 4294967296) :
    get_allocated mem p = al := by
  unfold get_allocated get_uat
  rw [h, pack_eq_add s al h8 h32]
  cases al
  · rw [show s + (if false then 1 else 0) = s + 0 from rfl, and_one_add s 0 h8 (by norm_num)]
    simp
  · rw [show s + (if true then 1 else 0) = s + 1 from rfl, and_one_add s 1 h8 (by norm_num)]
    simp

theorem load32_store32_pack (mem : Nat → Nat) (a s : Nat) (al : Bool)
    (h8 : s % 8 = 0) (h32 : s < 4294967296) :
    load32 (store32 mem a (pack s al)) a = pack s al := by
  rw [load32_store32_same, Nat.mod_eq_of_lt (pack_lt s al h8 h32)]

theorem memcpy_outside (mem : Nat → Nat) (dst src : Nat) :
    ∀ n x, (x < dst ∨ dst + n ≤ x) → memcpy mem dst src n x = mem x := by
  intro n
  induction n with
  | zero => intro x _; rfl
  | succ k ih =>
    intro x h
    simp only [memcpy]
    rw [if_neg (by omega)]
    exact ih x (by omega)

theorem memcpy_inside (mem : Nat → Nat) (dst src : Nat) :
    ∀ n, (src + n ≤ dst ∨ dst + n ≤ src) →
      ∀ i, i < n → memcpy mem dst src n (dst + i) = mem (src + i) := by
  intro n
  induction n with
  | zero => intro _ i hi; omega
  | succ k ih =>
    intro hd i hi
    simp only [memcpy]
    by_cases hik : i = k
    · subst hik
      rw [if_pos rfl]
      exact memcpy_outside mem dst src i (src + i) (by omega)
    · rw [if_neg (by omega)]
      exact ih (by omega) i (by omega)

end MM

open MM

/-- Claim C10: for every size that is a multiple of 8 and fits in 32
bits and every boolean a, reading the header word written as
pack(size, a) back through get_blksize and get_allocated recovers both
fields. -/
theorem pack_get_roundtrip (mem : Nat → Nat) (p size : Nat) (a : Bool)
    (h8 : size % 8 = 0) (h32 : size < 4294967296) :
    get_blksize (put_uvalue_at mem p (pack size a)) p = size ∧
    get_allocated (put_uvalue_at mem p (pack size a)) p = a := by
  have hload : load32 (store32 mem p (pack size a)) p = pack size a :=
    load32_store32_pack mem p size a h8 h32
  exact ⟨get_blksize_eq hload h8 h32, get_allocated_eq hload h8 h32⟩

/-- Witness for C10 at size 24, allocated. -/
theorem pack_get_roundtrip_witness :
    (24 % 8 = 0 ∧ 24 < 4294967296) ∧
    (get_blksize (put_uvalue_at (fun _ => 0) 0 (pack 24 true)) 0 = 24 ∧
     get_allocated (put_uvalue_at (fun _ => 0) 0 (pack 24 true)) 0 = true) :=
  ⟨⟨by decide, by decide⟩, pack_get_roundtrip (fun _ => 0) 0 24 true (by decide) (by decide)⟩

/-- Claim C4 (evaluation at the failing input): for n = 16 the code
computes adjusted size 32, not the mandated
round_up_to_multiple_of_8(16 + 2 WORD) = 24: when n + 8 is already a
multiple of 8 the source adds a full extra 8. -/
theorem adjusted_size_at_16 :
    adjusted_size 16 = 32 ∧ adjusted_size 16 ≠ 16 + 2 * WORD_SIZE := by decide

/-- Claim C1 (evaluation at the failing input): on the freshly
initialized heap, allocate(5000) computes asize = 5016, find_fit fails,
and the claim mandates a region request of max(5016, 4096) = 5016
bytes.  But the C++ max template is declared with return type bool, so
extendsize is 1, extend_heap(1/4) = extend_heap(0) requests 0 bytes,
the break does not move, and yet a non-null handle is returned. -/
theorem malloc_extension_request_degenerate :
    adjusted_size 5000 = 5016 ∧
    MM.max (adjusted_size 5000) CHUNK_SIZE = 1 ∧
    (mm_malloc S1 5000).1.m.brk = S1.m.brk ∧
    (mm_malloc S1 5000).2 ≠ none := by decide

/-- Claim C3 (evaluation at the failing input): after the public call
sequence init; p1 = allocate(8); p2 = allocate(8); p3 = allocate(8);
free(p2); free(p1), the walked block at handle 16 has header record 32
but footer record 16 (the allocated-prev/free-next coalesce case wrote
the merged footer into the following block instead). -/
theorem heap_walk_header_footer_mismatch :
    S6.heap_listp = some 8 ∧
    (16, 32, false) ∈ heapWalk S6.m.mem 100 8 ∧
    load32 S6.m.mem (get_header_ptr 16) = 32 ∧
    get_footer_ptr S6.m.mem 16 = 40 ∧
    load32 S6.m.mem 40 = 16 ∧
    (32 : Nat) ≠ 16 := by decide

/-- Claim C9 (counterexample): called in the uninitialized allocator
state, allocate(0) does return null, but it does not leave the heap
state unchanged: the lazy init runs before the size test, so heap_listp
changes from none to some 8 (and the region is laid out). -/
theorem malloc_zero_mutates_uninit_state :
    S0.heap_listp = none ∧
    (mm_malloc S0 0).2 = none ∧
    (mm_malloc S0 0).1.heap_listp = some 8 ∧
    (mm_malloc S0 0).1 ≠ S0 := by
  refine ⟨rfl, by decide, by decide, fun h => ?_⟩
  exact absurd (congrArg AllocState.heap_listp h) (by decide)

/-- Claim C9 (amended): allocate(0) returns a null handle, and in every
initialized allocator state it leaves the state unchanged; in the
uninitialized state lazy initialization runs first and changes the
heap. -/
theorem malloc_zero_noop_on_ready_state (s : AllocState) (hl : Nat)
    (h : s.heap_listp = some hl) : mm_malloc s 0 = (s, none) := by
  unfold mm_malloc
  rw [h]
  simp

/-- Witness for the amended C9 on a concrete initialized state. -/
theorem malloc_zero_noop_on_ready_state_witness :
    S8.heap_listp = some 8 ∧ mm_malloc S8 0 = (S8, none) :=
  ⟨rfl, malloc_zero_noop_on_ready_state S8 8 rfl⟩

/-- Claim C7 (counterexample): on the freshly initialized heap the old
epilogue header occupies address heap_brk - 4 = 4108, while a
successful region request returns the old break 4112.  The returned
pointer does not equal the address the old epilogue header occupied;
it is 4 bytes past it. -/
theorem sbrk_return_is_not_epilogue_address :
    S1.m.brk = 4112 ∧
    get_blksize S1.m.mem (S1.m.brk - 4) = 0 ∧
    get_allocated S1.m.mem (S1.m.brk - 4) = true ∧
    (mem_sbrk S1.m 4096).2 = some 4112 ∧
    (4112 : Nat) ≠ 4112 - 4 := by decide

/-- Claim C7 (amended): a successful region request returns the old
break; given the epilogue header sits at heap_brk - 4, the returned
pointer bp is 4 bytes past the old epilogue header, and the header
address of the new block, get_header_ptr bp, is exactly the address the
old epilogue header occupied. -/
theorem sbrk_returns_old_brk (m : MemState) (increment : Nat)
    (hroom : ¬ (m.brk + increment > m.maxAddr))
    (hepi : get_blksize m.mem (m.brk - 4) = 0 ∧ get_allocated m.mem (m.brk - 4) = true) :
    (mem_sbrk m increment).2 = some m.brk ∧ get_header_ptr m.brk = m.brk - 4 := by
  constructor
  · unfold mem_sbrk
    rw [if_neg hroom]
  · rfl

/-- Witness for the amended C7 on the freshly initialized heap. -/
theorem sbrk_returns_old_brk_witness :
    (¬ (S1.m.brk + 4096 > S1.m.maxAddr) ∧
      get_blksize S1.m.mem (S1.m.brk - 4) = 0 ∧
      get_allocated S1.m.mem (S1.m.brk - 4) = true) ∧
    ((mem_sbrk S1.m 4096).2 = some S1.m.brk ∧ get_header_ptr S1.m.brk = S1.m.brk - 4) :=
  ⟨⟨by decide, by decide, by decide⟩,
    sbrk_returns_old_brk S1.m 4096 (by decide) ⟨by decide, by decide⟩⟩

/-- The bool-typed max of the source always collapses to 1 when its
second argument is CHUNK_SIZE. -/
theorem max_chunk_eq_one (x : Nat) : MM.max x CHUNK_SIZE = 1 := by
  unfold MM.max CHUNK_SIZE
  by_cases hx : x > 4096
  · rw [if_pos hx, if_pos (by omega)]
  · rw [if_neg hx, if_pos (by omega)]

/-- When mm_malloc fails on an initialized state with a positive
request, the allocator state is unchanged: the only failing path is a
failed region request, which mutates nothing. -/
theorem mm_malloc_fail_state (s s1 : AllocState) (n hl : Nat)
    (hinit : s.heap_listp = some hl) (hn : 0 < n)
    (hfail : mm_malloc s n = (s1, none)) : s1 = s := by
  unfold mm_malloc at hfail
  rw [hinit] at hfail
  simp only [reduceCtorEq, if_false, if_neg (by omega : ¬ n = 0)] at hfail
  rw [hinit] at hfail
  simp only [] at hfail
  rcases hf : find_fit s.m.mem hl (adjusted_size n) s.m.maxAddr with _ | bp
  · rw [hf] at hfail
    simp only [max_chunk_eq_one] at hfail
    rw [show (1 / WORD_SIZE : Nat) = 0 from rfl] at hfail
    unfold extend_heap at hfail
    simp only [Nat.zero_mod, eq_self_iff_true, if_true, Nat.zero_mul, Nat.add_zero] at hfail
    unfold mem_sbrk at hfail
    by_cases hroom : s.m.brk + 0 > s.m.maxAddr
    · rw [if_pos hroom] at hfail
      simp only [] at hfail
      have h1 : ({ heap_listp := s.heap_listp, m := s.m } : AllocState) = s := rfl
      rw [h1] at hfail
      exact (Prod.ext_iff.mp hfail).1.symm
    · rw [if_neg hroom] at hfail
      simp only [] at hfail
      exact absurd (Prod.ext_iff.mp hfail).2 (by simp)
  · rw [hf] at hfail
    simp only [] at hfail
    exact absurd (Prod.ext_iff.mp hfail).2 (by simp)

/-- Claim C8: if the internal allocate inside reallocate(b, n) returns
null for a non-null b and n greater than 0, reallocate returns null and
the heap state is unchanged: b is not freed, stays allocated, and its
payload bytes are untouched (the whole allocator state is returned
exactly as it was). -/
theorem mm_realloc_fail_preserves_state (s s1 : AllocState) (b n hl : Nat)
    (hinit : s.heap_listp = some hl) (hn : 0 < n)
    (hfail : mm_malloc s n = (s1, none)) :
    mm_realloc s (some b) n = (s1, none) ∧ s1 = s := by
  constructor
  · unfold mm_realloc
    rw [if_neg (by omega : ¬ n = 0)]
    simp only [hfail]
  · exact mm_malloc_fail_state s s1 n hl hinit hn hfail

/-- Witness for C8 on a concrete exhausted heap with no free block. -/
theorem mm_realloc_fail_preserves_state_witness :
    (S8.heap_listp = some 8 ∧ 0 < 24 ∧ mm_malloc S8 24 = (S8, none)) ∧
    (mm_realloc S8 (some 16) 24 = (S8, none) ∧ (S8 : AllocState) = S8) :=
  ⟨⟨rfl, by decide, rfl⟩, mm_realloc_fail_preserves_state S8 S8 16 24 8 rfl (by decide) rfl⟩

/-- Claim C5 (counterexample): on the initialized heap with one
allocated block of total size 16 at handle 16 (payload capacity 8),
reallocate(16, 12) succeeds with the new handle 32.  The claim says
exactly min(12, 8) = 8 bytes are copied, which would leave the byte at
32 + 8 = 40 untouched (it was 0); but the code truncates by the total
block size, copies min(12, 16) = 12 bytes, and byte 40 now holds the
first footer byte of the source block (record 17). -/
theorem realloc_copies_past_payload_capacity :
    get_blksize S2.m.mem (get_header_ptr 16) = 16 ∧
    min 12 (get_blksize S2.m.mem (get_header_ptr 16) - 2 * WORD_SIZE) = 8 ∧
    load32 S2.m.mem 40 = 0 ∧
    load32 S2.m.mem 24 = 17 ∧
    (mm_realloc S2 (some 16) 12).2 = some 32 ∧
    load32 (mm_realloc S2 (some 16) 12).1.m.mem 40 = 17 ∧
    (17 : Nat) ≠ 0 := by decide

/-- Claim C5 (amended): for every non-null handle b and n > 0 for which
the internal allocate(n) succeeds with handle nb, reallocate(b, n)
copies exactly min(n, size(hdr(b))) bytes from b to nb - truncation is
by the total block size, not the payload capacity size(hdr(b)) - 2 WORD:
the final state is mm_free applied after the copy, every byte below the
copy length is transferred, and every byte outside the destination
range is untouched by the copy. -/
theorem mm_realloc_copies_min_n_blksize (s s1 : AllocState) (b n nb : Nat)
    (hn : ¬ n = 0)
    (hm : mm_malloc s n = (s1, some nb))
    (hdisj : b + min n (get_blksize s1.m.mem (get_header_ptr b)) ≤ nb ∨
             nb + min n (get_blksize s1.m.mem (get_header_ptr b)) ≤ b) :
    mm_realloc s (some b) n =
      (mm_free { s1 with m := { s1.m with
          mem := memcpy s1.m.mem nb b (min n (get_blksize s1.m.mem (get_header_ptr b))) } }
        (some b), some nb) ∧
    (∀ i, i < min n (get_blksize s1.m.mem (get_header_ptr b)) →
      memcpy s1.m.mem nb b (min n (get_blksize s1.m.mem (get_header_ptr b))) (nb + i)
        = s1.m.mem (b + i)) ∧
    (∀ x, x < nb ∨ nb + min n (get_blksize s1.m.mem (get_header_ptr b)) ≤ x →
      memcpy s1.m.mem nb b (min n (get_blksize s1.m.mem (get_header_ptr b))) x
        = s1.m.mem x) := by
  have hmin : (if n < get_blksize s1.m.mem (get_header_ptr b) then n
      else get_blksize s1.m.mem (get_header_ptr b))
      = min n (get_blksize s1.m.mem (get_header_ptr b)) := by
    rcases Nat.lt_or_ge n (get_blksize s1.m.mem (get_header_ptr b)) with h | h
    · rw [if_pos h]
      omega
    · rw [if_neg (by omega)]
      omega
  refine ⟨?_, ?_, ?_⟩
  · unfold mm_realloc
    rw [if_neg hn]
    simp only [hm]
    rw [hmin]
  · intro i hi
    exact memcpy_inside s1.m.mem nb b _ hdisj i hi
  · intro x hx
    exact memcpy_outside s1.m.mem nb b _ x hx

/-- Witness for the amended C5: reallocate(16, 12) on the initialized
heap copies min(12, 16) bytes to handle 32; byte 8 of the destination
comes from byte 8 of the source. -/
theorem mm_realloc_copies_min_witness :
    (mm_malloc S2 12).2 = some 32 ∧
    mm_realloc S2 (some 16) 12 =
      (mm_free { (mm_malloc S2 12).1 with m := { ((mm_malloc S2 12).1).m with
          mem := memcpy ((mm_malloc S2 12).1).m.mem 32 16
            (min 12 (get_blksize ((mm_malloc S2 12).1).m.mem (get_header_ptr 16))) } }
        (some 16), some 32) ∧
    memcpy ((mm_malloc S2 12).1).m.mem 32 16
        (min 12 (get_blksize ((mm_malloc S2 12).1).m.mem (get_header_ptr 16))) (32 + 8)
      = ((mm_malloc S2 12).1).m.mem (16 + 8) :=
  ⟨by decide,
   (mm_realloc_copies_min_n_blksize S2 (mm_malloc S2 12).1 16 12 32 (by decide) rfl
      (Or.inl (by decide))).1,
   (mm_realloc_copies_min_n_blksize S2 (mm_malloc S2 12).1 16 12 32 (by decide) rfl
      (Or.inl (by decide))).2.1 8 (by decide)⟩

/-- Unfolding equation for get_header_ptr. -/
theorem get_header_ptr_eq (x : Nat) : get_header_ptr x = x - 4 := rfl

/-- Claim C2 (amended): over any heap satisfying the local consequences
of the 3.5 invariants around a free block b of size s (consistent
boundary tags for b, for its neighbors of sizes sp and sn, sizes that
are multiples of 8, at least the minimum block size, and in range),
coalesce behaves as follows.  When the previous block is allocated and
the next block is free, coalesce(b) returns b and writes the merged
header (s + sn, free) at hdr(b); the surviving footer carries the same
record and the two agree provided the block following the free next
block is the epilogue (this proviso is forced by the counterexample:
with an allocated follower the merged footer is written into that
follower instead).  The other three neighbor cases need no proviso: the
allocated/allocated case writes nothing, and in the two free-previous
cases the merged block has agreeing header (at hdr(prev)) and footer. -/
theorem coalesce_neighbor_cases
    (mem : Nat → Nat) (b s sp sn : Nat) (pa na : Bool)
    (hsp8 : sp % 8 = 0) (hsp : 8 ≤ sp)
    (hs8 : s % 8 = 0) (hs : 16 ≤ s)
    (hsn8 : sn % 8 = 0) (hsn : 16 ≤ sn)
    (hlt : sp + s + sn < 4294967296)
    (hb : sp + 8 ≤ b)
    (hpf : load32 mem (b - 8) = pack sp pa)
    (hph : load32 mem (b - sp - 4) = pack sp pa)
    (hh : load32 mem (b - 4) = pack s false)
    (hf : load32 mem (b + s - 8) = pack s false)
    (hnh : load32 mem (b + s - 4) = pack sn na)
    (hnf : load32 mem (b + s + sn - 8) = pack sn na)
    (hepi : pa = true → na = false → load32 mem (b + s + sn - 4) = pack 0 true) :
    match pa, na with
    | true, true => coalesce mem b = (mem, b)
    | true, false =>
        (coalesce mem b).2 = b ∧
        load32 (coalesce mem b).1 (b - 4) = pack (s + sn) false ∧
        load32 (coalesce mem b).1 (b + s + sn - 8) = pack (s + sn) false
    | false, true =>
        (coalesce mem b).2 = b - sp ∧
        load32 (coalesce mem b).1 (b - sp - 4) = pack (s + sp) false ∧
        load32 (coalesce mem b).1 (b + s - 8) = pack (s + sp) false
    | false, false =>
        (coalesce mem b).2 = b - sp ∧
        load32 (coalesce mem b).1 (b - sp - 4) = pack (s + sp + sn) false ∧
        load32 (coalesce mem b).1 (b + s + sn - 8) = pack (s + sp + sn) false := by
  have hsp32 : sp < 4294967296 := by omega
  have hs32 : s < 4294967296 := by omega
  have hsn32 : sn < 4294967296 := by omega
  have hprev : get_prevblk_ptr mem b = b - sp := by
    unfold get_prevblk_ptr DOUBLE_SIZE
    rw [get_blksize_eq hpf hsp8 hsp32]
  have hfprev : get_footer_ptr mem (b - sp) = b - 8 := by
    unfold get_footer_ptr get_header_ptr WORD_SIZE DOUBLE_SIZE
    rw [get_blksize_eq hph hsp8 hsp32]
    omega
  have hpa2 : get_allocated mem (get_footer_ptr mem (get_prevblk_ptr mem b)) = pa := by
    rw [hprev, hfprev]
    exact get_allocated_eq hpf hsp8 hsp32
  have hnext : get_nextblk_ptr mem b = b + s := by
    unfold get_nextblk_ptr WORD_SIZE
    rw [get_blksize_eq hh hs8 hs32]
  have hna2 : get_allocated mem (get_header_ptr (get_nextblk_ptr mem b)) = na := by
    rw [hnext, get_header_ptr_eq]
    exact get_allocated_eq hnh hsn8 hsn32
  have hs0 : get_blksize mem (get_header_ptr b) = s := by
    rw [get_header_ptr_eq]
    exact get_blksize_eq hh hs8 hs32
  have hsn0 : get_blksize mem (get_header_ptr (get_nextblk_ptr mem b)) = sn := by
    rw [hnext, get_header_ptr_eq]
    exact get_blksize_eq hnh hsn8 hsn32
  have hsp0 : get_blksize mem (get_header_ptr (get_prevblk_ptr mem b)) = sp := by
    rw [hprev, get_header_ptr_eq]
    exact get_blksize_eq hph hsp8 hsp32
  cases pa <;> cases na
  · -- prev free, next free
    show (coalesce mem b).2 = b - sp ∧
        load32 (coalesce mem b).1 (b - sp - 4) = pack (s + sp + sn) false ∧
        load32 (coalesce mem b).1 (b + s + sn - 8) = pack (s + sp + sn) false
    have hsz8 : (s + sp + sn) % 8 = 0 := by omega
    have hsz32 : s + sp + sn < 4294967296 := by omega
    have hco : coalesce mem b =
        (store32 (store32 mem (b - sp - 4) (pack (s + sp + sn) false))
          (b + s + sn - 8) (pack (s + sp + sn) false), b - sp) := by
      simp only [coalesce, put_uvalue_at]
      rw [hpa2, hna2, hs0, hsp0, hsn0, hprev, get_header_ptr_eq (b - sp)]
      have hn1 : get_nextblk_ptr
          (store32 mem (b - sp - 4) (pack (s + sp + sn) false)) b = b + s := by
        unfold get_nextblk_ptr WORD_SIZE
        have hld : load32 (store32 mem (b - sp - 4) (pack (s + sp + sn) false)) (b - 4)
            = pack s false := by
          rw [load32_store32_other _ _ _ _ (by omega)]
          exact hh
        rw [get_blksize_eq hld hs8 hs32]
      rw [hn1]
      have hf1 : get_footer_ptr
          (store32 mem (b - sp - 4) (pack (s + sp + sn) false)) (b + s)
          = b + s + sn - 8 := by
        unfold get_footer_ptr get_header_ptr WORD_SIZE DOUBLE_SIZE
        have hld : load32 (store32 mem (b - sp - 4) (pack (s + sp + sn) false)) (b + s - 4)
            = pack sn false := by
          rw [load32_store32_other _ _ _ _ (by omega)]
          exact hnh
        rw [get_blksize_eq hld hsn8 hsn32]
      rw [hf1]
    rw [hco]
    refine ⟨rfl, ?_, ?_⟩
    · rw [load32_store32_other _ _ _ _ (by omega)]
      exact load32_store32_pack _ _ _ false hsz8 hsz32
    · exact load32_store32_pack _ _ _ false hsz8 hsz32
  · -- prev free, next allocated
    show (coalesce mem b).2 = b - sp ∧
        load32 (coalesce mem b).1 (b - sp - 4) = pack (s + sp) false ∧
        load32 (coalesce mem b).1 (b + s - 8) = pack (s + sp) false
    have hsz8 : (s + sp) % 8 = 0 := by omega
    have hsz32 : s + sp < 4294967296 := by omega
    have hco : coalesce mem b =
        (store32 (store32 mem (b + s - 8) (pack (s + sp) false))
          (b - sp - 4) (pack (s + sp) false), b - sp) := by
      simp only [coalesce, put_uvalue_at]
      rw [hpa2, hna2, hs0, hsp0]
      have hf0 : get_footer_ptr mem b = b + s - 8 := by
        unfold get_footer_ptr get_header_ptr WORD_SIZE DOUBLE_SIZE
        rw [get_blksize_eq hh hs8 hs32]
      rw [hf0]
      have hp1 : get_prevblk_ptr
          (store32 mem (b + s - 8) (pack (s + sp) false)) b = b - sp := by
        unfold get_prevblk_ptr DOUBLE_SIZE
        have hld : load32 (store32 mem (b + s - 8) (pack (s + sp) false)) (b - 8)
            = pack sp false := by
          rw [load32_store32_other _ _ _ _ (by omega)]
          exact hpf
        rw [get_blksize_eq hld hsp8 hsp32]
      rw [hp1, hprev, get_header_ptr_eq (b - sp)]
    rw [hco]
    refine ⟨rfl, ?_, ?_⟩
    · exact load32_store32_pack _ _ _ false hsz8 hsz32
    · rw [load32_store32_other _ _ _ _ (by omega)]
      exact load32_store32_pack _ _ _ false hsz8 hsz32
  · -- prev allocated, next free
    show (coalesce mem b).2 = b ∧
        load32 (coalesce mem b).1 (b - 4) = pack (s + sn) false ∧
        load32 (coalesce mem b).1 (b + s + sn - 8) = pack (s + sn) false
    have hsz8 : (s + sn) % 8 = 0 := by omega
    have hsz32 : s + sn < 4294967296 := by omega
    have hepi2 : load32 mem (b + s + sn - 4) = pack 0 true := hepi rfl rfl
    have hco : coalesce mem b =
        (store32 (store32 mem (b - 4) (pack (s + sn) false))
          (b + s + sn - 8) (pack (s + sn) false), b) := by
      simp only [coalesce, put_uvalue_at]
      rw [hpa2, hna2, hs0, hsn0, get_header_ptr_eq]
      have hn1 : get_nextblk_ptr
          (store32 mem (b - 4) (pack (s + sn) false)) b = b + (s + sn) := by
        unfold get_nextblk_ptr WORD_SIZE
        rw [get_blksize_eq (load32_store32_pack mem (b - 4) (s + sn) false hsz8 hsz32)
          hsz8 hsz32]
      rw [hn1]
      have hf1 : get_footer_ptr
          (store32 mem (b - 4) (pack (s + sn) false)) (b + (s + sn))
          = b + s + sn - 8 := by
        unfold get_footer_ptr get_header_ptr WORD_SIZE DOUBLE_SIZE
        have ha : b + (s + sn) - 4 = b + s + sn - 4 := by omega
        have hld : load32 (store32 mem (b - 4) (pack (s + sn) false)) (b + (s + sn) - 4)
            = pack 0 true := by
          rw [ha, load32_store32_other _ _ _ _ (by omega)]
          exact hepi2
        rw [get_blksize_eq hld (by omega) (by omega)]
        omega
      rw [hf1]
    rw [hco]
    refine ⟨rfl, ?_, ?_⟩
    · rw [load32_store32_other _ _ _ _ (by omega)]
      exact load32_store32_pack _ _ _ false hsz8 hsz32
    · exact load32_store32_pack _ _ _ false hsz8 hsz32
  · -- prev allocated, next allocated
    show coalesce mem b = (mem, b)
    simp only [coalesce, put_uvalue_at]
    rw [hpa2, hna2]

/-- Claim C2 (counterexample): a heap satisfying the invariants around
the free block at handle 16 (prologue allocated before it, free
16-byte successor at 32, then an allocated 16-byte block at 48 with
agreeing tags, then the epilogue): coalesce(16) returns 16 and writes
the merged header record 32, but the surviving footer of the merged
block (at offset 40) still holds record 16, so header and footer are
not equal records; moreover the footer of the allocated block at 48
(offset 56) is clobbered from 17 to 32. -/
theorem coalesce_footer_mismatch :
    get_allocated memX (get_footer_ptr memX (get_prevblk_ptr memX 16)) = true ∧
    get_allocated memX (get_header_ptr (get_nextblk_ptr memX 16)) = false ∧
    load32 memX (get_header_ptr 16) = pack 16 false ∧
    load32 memX (get_footer_ptr memX 16) = pack 16 false ∧
    get_allocated memX (get_header_ptr 48) = true ∧
    load32 memX (get_header_ptr 48) = load32 memX (get_footer_ptr memX 48) ∧
    (coalesce memX 16).2 = 16 ∧
    load32 (coalesce memX 16).1 (get_header_ptr 16) = 32 ∧
    get_footer_ptr (coalesce memX 16).1 16 = 40 ∧
    load32 (coalesce memX 16).1 40 = 16 ∧
    (32 : Nat) ≠ 16 ∧
    load32 memX 56 = 17 ∧
    load32 (coalesce memX 16).1 56 = 32 := by decide

/-- Witness for the amended C2: the allocated/free case on a heap where
the block after next is the epilogue. -/
theorem coalesce_neighbor_cases_witness :
    (load32 memW (16 - 8) = pack 8 true ∧ load32 memW (16 - 8 - 4) = pack 8 true ∧
     load32 memW (16 - 4) = pack 16 false ∧ load32 memW (16 + 16 - 8) = pack 16 false ∧
     load32 memW (16 + 16 - 4) = pack 16 false ∧
     load32 memW (16 + 16 + 16 - 8) = pack 16 false ∧
     load32 memW (16 + 16 + 16 - 4) = pack 0 true) ∧
    ((coalesce memW 16).2 = 16 ∧
     load32 (coalesce memW 16).1 (16 - 4) = pack (16 + 16) false ∧
     load32 (coalesce memW 16).1 (16 + 16 + 16 - 8) = pack (16 + 16) false) :=
  ⟨⟨by decide, by decide, by decide, by decide, by decide, by decide, by decide⟩,
   coalesce_neighbor_cases memW 16 16 8 16 true false (by decide) (by decide) (by decide)
     (by decide) (by decide) (by decide) (by decide) (by decide) (by decide) (by decide)
     (by decide) (by decide) (by decide) (by decide) (fun _ _ => by decide)⟩
